import Mathlib

/-!
Shallow embedding of the Telegram birthday bot (`bot/birthday_bot.py` and
`main.py`) and proofs of the specified properties of its congratulation
pipeline: loading, celebrant filtering, template selection/rendering and
dispatch.

External effects are modelled as explicit inputs:
  * the parsed content of the two JSON files becomes `List RawEntry` and
    `List String` arguments;
  * the process environment becomes a function `String → Option String`;
  * the PRNG behind `random.choice` becomes a draw oracle `Nat → Nat`
    (the index drawn for the i-th celebrant is `draws i % templates.length`);
  * the HTTP transport becomes a response oracle `Nat → HttpResponse`
    giving the response to the i-th POST of the run.
Fallible code returns `Except BotError _` / `Option _`.
-/

set_option linter.unusedVariables false

deriving instance DecidableEq for Except

/-- A calendar date as produced by `datetime.strptime(_, "%Y-%m-%d").date()`. -/
structure Date where
  year : Nat
  month : Nat
  day : Nat
deriving DecidableEq, Repr

/-- One element of the birthdays JSON array: a dict whose relevant keys are
`name`, `nickname` and `date`; a `none` field models an absent key. -/
structure RawEntry where
  name : Option String
  nickname : Option String
  date : Option String
deriving DecidableEq, Repr

/-- The errors the run can abort with, mirroring the exceptions of
`birthday_bot.py`: `BirthdayBotError` for a missing entry field, the
`ValueError` of `strptime` for a bad date, `BirthdayBotError` for an empty
template list, the `KeyError` of `str.format` for an unknown placeholder,
`MissingEnvironmentVariableError` and `TelegramApiError`. -/
inductive BotError where
  | malformedEntry (entry : RawEntry) (field : String)
  | dateFormatError (value : String)
  | noTemplatesAvailable
  | renderKeyError
  | missingEnvironmentVariable (varName : String)
  | telegramApiError (status_code : Nat) (response_text : String)
deriving DecidableEq, Repr

/-- The whitespace characters Python's `str.strip` removes (ASCII range). -/
def isSpaceChar (c : Char) : Bool :=
  c = ' ' ∨ c = '\t' ∨ c = '\n' ∨ c = '\r' ∨ c = '\x0b' ∨ c = '\x0c'

/-- Python `str.strip()`: remove leading and trailing whitespace. -/
def pyStrip (s : String) : String :=
  ⟨((s.data.dropWhile isSpaceChar).reverse.dropWhile isSpaceChar).reverse⟩

/-- Python `str.startswith(pre)`. -/
def pyStartsWith (s pre : String) : Bool :=
  pre.data.isPrefixOf s.data

/-- `Person` dataclass. -/
structure Person where
  name : String
  nickname : String
  birthday : Date
deriving DecidableEq, Repr

/-- `Person.mention`: strip the nickname; prepend `@` unless already present. -/
def Person.mention (p : Person) : String :=
  let nick := pyStrip p.nickname
  if pyStartsWith nick "@" then nick else "@" ++ nick

/-- `MessageTemplate` dataclass. -/
structure MessageTemplate where
  text : String
deriving DecidableEq, Repr

/-- Resolve a `str.format` replacement field against the keyword arguments
`name=...` and `mention=...`; any other field name is a `KeyError`. -/
def lookupField (nv mv : List Char) (field : List Char) : Option (List Char) :=
  if field = "name".data then some nv
  else if field = "mention".data then some mv
  else none

/-- Core of Python `str.format(name=nv, mention=mv)` on the template's
characters.  First argument `none`: scanning literal text; `some acc`:
inside a replacement field with the field name accumulated in `acc`.
Doubled braces are literals, a lone closing brace or an unterminated field
is an error (`ValueError`), an unknown field name is a `KeyError`. -/
def formatAux (nv mv : List Char) : Option (List Char) → List Char → Option (List Char)
  | none, [] => some []
  | some _, [] => none
  | none, c :: rest =>
    if c = '{' then
      match rest with
      | [] => none
      | d :: rest2 =>
        if d = '{' then Option.map (fun t => '{' :: t) (formatAux nv mv none rest2)
        else if d = '}' then none
        else formatAux nv mv (some [d]) rest2
    else if c = '}' then
      match rest with
      | [] => none
      | d :: rest2 =>
        if d = '}' then Option.map (fun t => '}' :: t) (formatAux nv mv none rest2)
        else none
    else Option.map (fun t => c :: t) (formatAux nv mv none rest)
  | some acc, c :: rest =>
    if c = '}' then
      match lookupField nv mv acc with
      | some v => Option.map (fun t => v ++ t) (formatAux nv mv none rest)
      | none => none
    else formatAux nv mv (some (acc ++ [c])) rest

/-- `MessageTemplate.render`:
`self.text.format(name=person.name, mention=person.mention)`. -/
def MessageTemplate.render (t : MessageTemplate) (p : Person) : Option String :=
  Option.map String.mk (formatAux p.name.data p.mention.data none t.text.data)

/-- `True` for years `datetime` counts as leap years. -/
def isLeapYear (y : Nat) : Bool :=
  y % 4 = 0 && (y % 100 ≠ 0 || y % 400 = 0)

/-- Number of days `datetime.date` accepts in month `m` of year `y`. -/
def daysInMonth (y m : Nat) : Nat :=
  if m = 2 then (if isLeapYear y then 29 else 28)
  else if m = 4 ∨ m = 6 ∨ m = 9 ∨ m = 11 then 30
  else 31

/-- Split a character list at every `'-'`. -/
def splitDashes : List Char → List (List Char)
  | [] => [[]]
  | c :: rest =>
    let r := splitDashes rest
    if c = '-' then [] :: r
    else
      match r with
      | [] => [[c]]
      | g :: gs => (c :: g) :: gs

/-- Numeric value of a digit string. -/
def digitsToNat (cs : List Char) : Nat :=
  cs.foldl (fun n c => n * 10 + (c.toNat - 48)) 0

/-- `datetime.strptime(s, "%Y-%m-%d").date()` as a partial function:
exactly three dash-separated digit groups, the year of exactly four digits,
month and day of one or two; the values must form a real calendar date
(`datetime` range: year ≥ 1, month 1–12, day within the month). -/
def parseDate (s : String) : Option Date :=
  match splitDashes s.data with
  | [ys, ms, ds] =>
    if ys.length = 4 ∧ ys.all Char.isDigit = true ∧
       1 ≤ ms.length ∧ ms.length ≤ 2 ∧ ms.all Char.isDigit = true ∧
       1 ≤ ds.length ∧ ds.length ≤ 2 ∧ ds.all Char.isDigit = true then
      let y := digitsToNat ys
      let m := digitsToNat ms
      let d := digitsToNat ds
      if 1 ≤ y ∧ 1 ≤ m ∧ m ≤ 12 ∧ 1 ≤ d ∧ d ≤ daysInMonth y m then
        some ⟨y, m, d⟩
      else none
    else none
  | _ => none

/-- Body of the `for entry in entries` loop of `load_birthdays`: the date is
read and parsed first (`entry["date"]`, then `strptime`), then the `Person`
constructor arguments are evaluated (`entry["name"]`, then
`entry["nickname"]`); a missing key becomes `malformedEntry` naming the
entry and the key, a bad date the `ValueError` of `strptime`. -/
def parseEntry (entry : RawEntry) : Except BotError Person :=
  match entry.date with
  | none => .error (.malformedEntry entry "date")
  | some ds =>
    match parseDate ds with
    | none => .error (.dateFormatError ds)
    | some birthday =>
      match entry.name with
      | none => .error (.malformedEntry entry "name")
      | some n =>
        match entry.nickname with
        | none => .error (.malformedEntry entry "nickname")
        | some nk => .ok ⟨pyStrip n, pyStrip nk, birthday⟩

/-- `load_birthdays` on the parsed JSON array: build the people list entry by
entry, aborting at the first bad entry. -/
def load_birthdays : List RawEntry → Except BotError (List Person)
  | [] => .ok []
  | e :: es =>
    match parseEntry e with
    | .error err => .error err
    | .ok p =>
      match load_birthdays es with
      | .error err => .error err
      | .ok ps => .ok (p :: ps)

/-- `load_message_templates` on the parsed JSON array of strings:
`[MessageTemplate(text=entry.strip()) for entry in entries if entry.strip()]`. -/
def load_message_templates : List String → List MessageTemplate
  | [] => []
  | e :: es =>
    if pyStrip e = "" then load_message_templates es
    else ⟨pyStrip e⟩ :: load_message_templates es

/-- The `for person in people` loop of `select_messages`, with `i` the index
of the current celebrant in the run: `random.choice(templates)` is modelled
as the template at index `draws i % templates.length` (the branch is only
reached with `templates` non-empty, so the default is never used). -/
def selectLoop (draws : Nat → Nat) (templates : List MessageTemplate) :
    List Person → Nat → Except BotError (List String)
  | [], _ => .ok []
  | p :: ps, i =>
    match (templates.getD (draws i % templates.length) ⟨""⟩).render p with
    | none => .error .renderKeyError
    | some msg =>
      match selectLoop draws templates ps (i + 1) with
      | .error e => .error e
      | .ok rest => .ok (msg :: rest)

/-- `select_messages`: fail when the template list is empty, otherwise render
one randomly chosen template per person, in order. -/
def select_messages (draws : Nat → Nat) (people : List Person)
    (templates : List MessageTemplate) : Except BotError (List String) :=
  if templates.isEmpty then .error .noTemplatesAvailable
  else selectLoop draws templates people 0

/-- `_get_env_variable`: `os.getenv` then `if not value: raise` — `None` and
the empty string both count as missing. -/
def _get_env_variable (env : String → Option String) (name : String) :
    Except BotError String :=
  match env name with
  | none => .error (.missingEnvironmentVariable name)
  | some value =>
    if value = "" then .error (.missingEnvironmentVariable name)
    else .ok value

/-- An HTTP response as the transport returns it. -/
structure HttpResponse where
  status_code : Nat
  text : String
deriving DecidableEq, Repr

/-- `send_telegram_message`, given the response the POST obtained: a status
of 400 or more raises `TelegramApiError(status, body)`, anything below
returns normally. -/
def send_telegram_message (token chatId text : String) (resp : HttpResponse) :
    Except BotError Unit :=
  if 400 ≤ resp.status_code then
    .error (.telegramApiError resp.status_code resp.text)
  else .ok ()

/-- The `for message in messages` send loop of `congratulate_today`, with `i`
the index of the next POST of the run.  Returns the list of attempted calls
`(token, chatId, text)` in order, and the outcome: the loop stops at the
first failing send, which is itself recorded as attempted. -/
def sendLoop (responds : Nat → HttpResponse) (token chatId : String) :
    List String → Nat → List (String × String × String) × Except BotError Unit
  | [], _ => ([], .ok ())
  | m :: ms, i =>
    match send_telegram_message token chatId m (responds i) with
    | .error e => ([(token, chatId, m)], .error e)
    | .ok _ =>
      match sendLoop responds token chatId ms (i + 1) with
      | (trace, r) => ((token, chatId, m) :: trace, r)

/-- The celebrant list comprehension of `congratulate_today`: keep the people
whose birthday matches today's month and day, in input order. -/
def celebrants (people : List Person) (today : Date) : List Person :=
  people.filter (fun p => p.birthday.month == today.month && p.birthday.day == today.day)

/-- `congratulate_today`, with the files' parsed content, the environment,
the transport and the PRNG passed explicitly.  Returns the attempted
transport calls alongside the Python result (the returned message list, or
the exception that aborted the run). -/
def congratulate_today (env : String → Option String)
    (responds : Nat → HttpResponse) (draws : Nat → Nat) (today : Date)
    (birthdayEntries : List RawEntry) (templateEntries : List String) :
    List (String × String × String) × Except BotError (List String) :=
  match load_birthdays birthdayEntries with
  | .error e => ([], .error e)
  | .ok people =>
    let templates := load_message_templates templateEntries
    let cs := celebrants people today
    if cs = [] then ([], .ok [])
    else
      match _get_env_variable env "TELEGRAM_BOT_TOKEN" with
      | .error e => ([], .error e)
      | .ok token =>
        match _get_env_variable env "TELEGRAM_CHAT_ID" with
        | .error e => ([], .error e)
        | .ok chatId =>
          match select_messages draws cs templates with
          | .error e => ([], .error e)
          | .ok messages =>
            match sendLoop responds token chatId messages 0 with
            | (trace, .error e) => (trace, .error e)
            | (trace, .ok _) => (trace, .ok messages)

/-! ## Sample inputs used by the witnesses -/

/-- A draw oracle that always picks index 0. -/
def zeroDraws : Nat → Nat := fun _ => 0

/-- A draw oracle that always picks index 1. -/
def oneDraws : Nat → Nat := fun _ => 1

/-- A transport whose every response is a 200. -/
def okResponds : Nat → HttpResponse := fun _ => ⟨200, "ok"⟩

/-- A transport that fails the second POST of the run with a 500. -/
def failSecondResponds : Nat → HttpResponse :=
  fun i => if i = 1 then ⟨500, "boom"⟩ else ⟨200, "ok"⟩

/-- An environment with no variables set at all. -/
def emptyEnv : String → Option String := fun _ => none

/-- An environment where the token is present but empty. -/
def emptyTokenEnv : String → Option String :=
  fun n => if n = "TELEGRAM_BOT_TOKEN" then some "" else some "secret"

/-- A well-formed birthdays-file entry. -/
def annEntry : RawEntry := ⟨some "Ann", some "ann", some "1990-04-07"⟩

/-- The person `annEntry` loads to. -/
def annPerson : Person := ⟨"Ann", "ann", ⟨1990, 4, 7⟩⟩

/-- A template using both placeholders. -/
def greetTemplate : MessageTemplate := ⟨"Hi {name} ({mention})"⟩

/-- Fallback `Person` for out-of-range `List.getD` (never actually selected). -/
def defaultPerson : Person := ⟨"", "", ⟨0, 0, 0⟩⟩

/-! ## Helper lemmas -/

theorem getD_mem_of_lt {α : Type} (l : List α) (n : Nat) (d : α)
    (h : n < l.length) : l.getD n d ∈ l := by
  rw [List.getD_eq_getElem?_getD, List.getElem?_eq_getElem h]
  exact List.getElem_mem h

/-! ## C6: transport success/failure criterion -/

/-- C6: `send_telegram_message` returns normally exactly when the response
status is below 400, and any status of 400 or more raises `TelegramApiError`
carrying that status and the response body verbatim. -/
theorem send_telegram_message_spec (token chatId text : String) (resp : HttpResponse) :
    (send_telegram_message token chatId text resp = .ok () ↔ resp.status_code < 400) ∧
    (400 ≤ resp.status_code →
      send_telegram_message token chatId text resp
        = .error (.telegramApiError resp.status_code resp.text)) := by
  unfold send_telegram_message
  constructor
  · split
    · simp; omega
    · simp; omega
  · intro h
    simp [h]

/-- Witness for C6 at a 200 and a 401 response. -/
theorem send_telegram_message_spec_witness :
    send_telegram_message "tok" "chat" "hello" ⟨200, "ok"⟩ = .ok () ∧
    send_telegram_message "tok" "chat" "hello" ⟨401, "unauthorized"⟩
      = .error (.telegramApiError 401 "unauthorized") :=
  ⟨(send_telegram_message_spec "tok" "chat" "hello" ⟨200, "ok"⟩).1.mpr (by decide),
   (send_telegram_message_spec "tok" "chat" "hello" ⟨401, "unauthorized"⟩).2 (by decide)⟩

/-! ## C3: the celebrant filter -/

/-- C3: the celebrant filter keeps exactly the people whose birthday month and
day equal the reference date's (year ignored), preserves the input order
(the result is a sublist of the input), and is empty — not an error — when
nobody matches. -/
theorem celebrants_filter_spec (people : List Person) (today : Date) :
    (∀ p, p ∈ celebrants people today ↔
      p ∈ people ∧ p.birthday.month = today.month ∧ p.birthday.day = today.day) ∧
    (celebrants people today).Sublist people ∧
    ((∀ p ∈ people, ¬(p.birthday.month = today.month ∧ p.birthday.day = today.day)) →
      celebrants people today = []) := by
  refine ⟨?_, List.filter_sublist people, ?_⟩
  · intro p
    simp [celebrants, List.mem_filter]
  · intro h
    rw [celebrants, List.filter_eq_nil_iff]
    intro p hp
    simp
    have := h p hp
    tauto

/-- Witness for C3: a person whose birthday is not the reference date hits the
empty-result (no-error) branch. -/
theorem celebrants_filter_spec_witness :
    celebrants [annPerson] ⟨2020, 5, 1⟩ = [] :=
  (celebrants_filter_spec [annPerson] ⟨2020, 5, 1⟩).2.2 (by decide)

/-! ## C9: template loading -/

theorem load_message_templates_eq (entries : List String) :
    load_message_templates entries
      = (entries.filter fun e => !(pyStrip e == "")).map fun e => ⟨pyStrip e⟩ := by
  induction entries with
  | nil => rfl
  | cons e es ih =>
    by_cases h : pyStrip e = "" <;>
      simp [load_message_templates, h, ih]

/-- C9: `load_message_templates` keeps, in file order, one template per entry
that is non-empty after stripping; each kept template's text is the stripped
entry and is non-empty; entries empty after stripping are dropped silently
(the function is total — no error case). -/
theorem load_message_templates_spec (entries : List String) :
    (load_message_templates entries
      = (entries.filter fun e => !(pyStrip e == "")).map fun e => ⟨pyStrip e⟩) ∧
    (∀ t ∈ load_message_templates entries,
      (∃ e ∈ entries, t.text = pyStrip e) ∧ t.text ≠ "") := by
  refine ⟨load_message_templates_eq entries, ?_⟩
  intro t ht
  rw [load_message_templates_eq entries] at ht
  simp [List.mem_filter] at ht
  obtain ⟨e, ⟨he, hne⟩, rfl⟩ := ht
  exact ⟨⟨e, he, rfl⟩, hne⟩

/-- Witness for C9: two blank entries dropped silently around one kept,
stripped, non-empty entry. -/
theorem load_message_templates_spec_witness :
    load_message_templates ["  ", " hi there ", ""] = [⟨"hi there"⟩] ∧
    (∃ e ∈ ["  ", " hi there ", ""],
      MessageTemplate.text ⟨"hi there"⟩ = pyStrip e) ∧
    MessageTemplate.text ⟨"hi there"⟩ ≠ "" := by
  have h := (load_message_templates_spec ["  ", " hi there ", ""]).2 ⟨"hi there"⟩ (by decide)
  exact ⟨by decide, h⟩

/-! ## C1: the empty-template check -/

theorem selectLoop_ne_noTemplates (draws : Nat → Nat)
    (templates : List MessageTemplate) (ps : List Person) (i : Nat) :
    selectLoop draws templates ps i ≠ .error .noTemplatesAvailable := by
  induction ps generalizing i with
  | nil => simp [selectLoop]
  | cons p ps ih =>
    simp only [selectLoop]
    cases hr : (templates.getD (draws i % templates.length) ⟨""⟩).render p with
    | none => simp
    | some msg =>
      cases hl : selectLoop draws templates ps (i + 1) with
      | error e =>
        intro hc
        simp at hc
        exact ih (i + 1) (by rw [hl, hc])
      | ok rest => simp

/-- C1 as stated is false on the code: with an empty celebrant sequence and an
empty template sequence, `select_messages` raises `NoTemplatesAvailable`
instead of returning the empty sequence — the `if not templates` check does
not look at the celebrants. -/
theorem select_messages_empty_empty_raises :
    select_messages zeroDraws [] [] ≠ .ok [] ∧
    select_messages zeroDraws [] [] = .error .noTemplatesAvailable :=
  ⟨by decide, by decide⟩

/-- C1 (amended): `select_messages` fails with `NoTemplatesAvailable` exactly
when the template sequence is empty, whether or not any celebrant exists, and
the check precedes any random draw: on an empty template sequence the outcome
does not depend on the random source. -/
theorem select_messages_noTemplates_iff (draws draws2 : Nat → Nat)
    (people : List Person) (templates : List MessageTemplate) :
    (select_messages draws people templates = .error .noTemplatesAvailable ↔
      templates = []) ∧
    (templates = [] →
      select_messages draws people templates
        = select_messages draws2 people templates) := by
  constructor
  · constructor
    · intro h
      by_contra hne
      have hemp : templates.isEmpty = false := by
        simpa [List.isEmpty_iff] using hne
      simp only [select_messages, hemp, Bool.false_eq_true, if_false] at h
      exact selectLoop_ne_noTemplates draws templates people 0 h
    · intro h
      subst h
      rfl
  · intro h
    subst h
    rfl

/-- Witness for C1 (amended): one celebrant and no templates fails with
`NoTemplatesAvailable`; with no templates the result is the same under two
different random sources. -/
theorem select_messages_noTemplates_iff_witness :
    select_messages zeroDraws [annPerson] [] = .error .noTemplatesAvailable ∧
    select_messages zeroDraws [] [] = select_messages oneDraws [] [] :=
  ⟨(select_messages_noTemplates_iff zeroDraws zeroDraws [annPerson] []).1.mpr rfl,
   (select_messages_noTemplates_iff zeroDraws oneDraws [] []).2 rfl⟩

/-! ## C5: loader errors -/

/-- An entry whose date key is absent. -/
def noDateEntry : RawEntry := ⟨some "Ann", some "ann", none⟩

/-- An entry whose date string does not parse as `YYYY-MM-DD`. -/
def badDateEntry : RawEntry := ⟨some "Bob", some "bob", some "not-a-date"⟩

/-- C5: a birthdays entry missing one of the required keys makes the loader
fail with `malformedEntry` naming that entry and the missing key (the date is
read first, then name, then nickname), an unparseable date string makes it
fail with the date-format error, and either failure is terminal: the whole
`load_birthdays` call errors (no partial list is returned). -/
theorem load_birthdays_error_spec (entry : RawEntry) (pre post : List RawEntry) :
    (entry.date = none → parseEntry entry = .error (.malformedEntry entry "date")) ∧
    (∀ ds, entry.date = some ds → parseDate ds = none →
      parseEntry entry = .error (.dateFormatError ds)) ∧
    (∀ ds d, entry.date = some ds → parseDate ds = some d → entry.name = none →
      parseEntry entry = .error (.malformedEntry entry "name")) ∧
    (∀ ds d n, entry.date = some ds → parseDate ds = some d → entry.name = some n →
      entry.nickname = none →
      parseEntry entry = .error (.malformedEntry entry "nickname")) ∧
    (∀ err, (∀ e ∈ pre, ∃ q, parseEntry e = .ok q) →
      parseEntry entry = .error err →
      load_birthdays (pre ++ entry :: post) = .error err) := by
  refine ⟨?_, ?_, ?_, ?_, ?_⟩
  · intro h
    simp [parseEntry, h]
  · intro ds h hpd
    simp [parseEntry, h, hpd]
  · intro ds d h hpd hn
    simp [parseEntry, h, hpd, hn]
  · intro ds d n h hpd hn hnk
    simp [parseEntry, h, hpd, hn, hnk]
  · intro err
    induction pre with
    | nil =>
      intro _ herr
      simp [load_birthdays, herr]
    | cons e es ih =>
      intro hpre herr
      obtain ⟨q, hq⟩ := hpre e (List.mem_cons_self e es)
      have ihres := ih (fun e2 he2 => hpre e2 (List.mem_cons_of_mem e he2)) herr
      simp only [List.cons_append, load_birthdays, hq, List.append_eq, ihres]

/-- Witness for C5: a missing date key, an unparseable date, and terminality
behind one good entry. -/
theorem load_birthdays_error_spec_witness :
    parseEntry noDateEntry = .error (.malformedEntry noDateEntry "date") ∧
    parseEntry badDateEntry = .error (.dateFormatError "not-a-date") ∧
    load_birthdays ([annEntry] ++ noDateEntry :: [])
      = .error (.malformedEntry noDateEntry "date") := by
  refine ⟨(load_birthdays_error_spec noDateEntry [] []).1 rfl,
    (load_birthdays_error_spec badDateEntry [] []).2.1 "not-a-date" rfl (by decide),
    (load_birthdays_error_spec noDateEntry [annEntry] []).2.2.2.2
      (.malformedEntry noDateEntry "date") ?_
      ((load_birthdays_error_spec noDateEntry [annEntry] []).1 rfl)⟩
  intro e he
  simp at he
  subst he
  exact ⟨⟨"Ann", "ann", ⟨1990, 4, 7⟩⟩, by decide⟩

/-! ## C8: mention derivation and rendering -/

theorem dropWhile_eq_self_of_prefix {α : Type} (p : α → Bool) (l1 l2 : List α)
    (hpre : l1.IsPrefix l2) (h : l2.dropWhile p = l2) : l1.dropWhile p = l1 := by
  rw [List.dropWhile_eq_self_iff] at h ⊢
  intro hl
  have hlen : 0 < l2.length := lt_of_lt_of_le hl hpre.length_le
  have hget : l1.get ⟨0, hl⟩ = l2.get ⟨0, hlen⟩ := by
    obtain ⟨t, rfl⟩ := hpre
    exact (List.getElem_append_left hl).symm
  rw [hget]
  exact h hlen

theorem pyStrip_data (s : String) :
    (pyStrip s).data
      = ((s.data.dropWhile isSpaceChar).reverse.dropWhile isSpaceChar).reverse := rfl

theorem pyStrip_idem (s : String) : pyStrip (pyStrip s) = pyStrip s := by
  apply String.ext
  rw [pyStrip_data, pyStrip_data]
  have hAd : (s.data.dropWhile isSpaceChar).dropWhile isSpaceChar
      = s.data.dropWhile isSpaceChar := List.dropWhile_idempotent ..
  have hsuf : ((s.data.dropWhile isSpaceChar).reverse.dropWhile isSpaceChar).IsSuffix
      (s.data.dropWhile isSpaceChar).reverse := List.dropWhile_suffix isSpaceChar
  have hBpre : ((s.data.dropWhile isSpaceChar).reverse.dropWhile isSpaceChar).reverse.IsPrefix
      (s.data.dropWhile isSpaceChar) := by
    have := List.reverse_prefix.mpr hsuf
    simpa using this
  have hB := dropWhile_eq_self_of_prefix isSpaceChar _ _ hBpre hAd
  rw [hB, List.reverse_reverse, List.dropWhile_idempotent]

theorem parseEntry_ok_stripped (e : RawEntry) (p : Person)
    (h : parseEntry e = .ok p) :
    (∃ n, p.name = pyStrip n) ∧ ∃ nk, p.nickname = pyStrip nk := by
  obtain ⟨na, nk0, dt⟩ := e
  cases dt with
  | none => simp [parseEntry] at h
  | some ds =>
    cases hpd : parseDate ds with
    | none => simp [parseEntry, hpd] at h
    | some bd =>
      cases na with
      | none => simp [parseEntry, hpd] at h
      | some n =>
        cases nk0 with
        | none => simp [parseEntry, hpd] at h
        | some nk =>
          simp [parseEntry, hpd] at h
          exact ⟨⟨n, by rw [← h]⟩, ⟨nk, by rw [← h]⟩⟩

theorem load_birthdays_nickname_stripped (entries : List RawEntry)
    (people : List Person) (h : load_birthdays entries = .ok people) :
    ∀ p ∈ people, pyStrip p.nickname = p.nickname := by
  induction entries generalizing people with
  | nil =>
    simp [load_birthdays] at h
    subst h
    simp
  | cons e es ih =>
    simp only [load_birthdays] at h
    cases hpe : parseEntry e with
    | error err => rw [hpe] at h; simp at h
    | ok p0 =>
      rw [hpe] at h
      cases hres : load_birthdays es with
      | error err => rw [hres] at h; simp at h
      | ok ps =>
        rw [hres] at h
        simp at h
        subst h
        intro p hp
        rcases List.mem_cons.mp hp with rfl | hmem
        · obtain ⟨-, nk, hnk⟩ := parseEntry_ok_stripped e p hpe
          rw [hnk, pyStrip_idem]
        · exact ih ps hres p hmem

/-- C8: rendering is a pure function of the template and person; the mention
is the nickname itself when it already starts with `@` and the `@`-prefixed
nickname otherwise (so no double `@` is ever produced by the derivation);
`"Hi {name} ({mention})"` renders to the template text with `{name}` and
`{mention}` substituted, and for name `Ann`, nickname `ann` it yields
`"Hi Ann (@ann)"`.  The no-surrounding-whitespace hypothesis is the `Person`
construction invariant, which every person loaded from the birthdays file
satisfies (last conjunct). -/
theorem mention_render_spec (p : Person)
    (hnick : pyStrip p.nickname = p.nickname) :
    (p.mention = if pyStartsWith p.nickname "@" then p.nickname
      else "@" ++ p.nickname) ∧
    (∀ q : Person, MessageTemplate.render ⟨"Hi {name} ({mention})"⟩ q
      = some ("Hi " ++ q.name ++ " (" ++ q.mention ++ ")")) ∧
    (MessageTemplate.render ⟨"Hi {name} ({mention})"⟩ ⟨"Ann", "ann", ⟨1990, 4, 7⟩⟩
      = some "Hi Ann (@ann)") ∧
    (∀ entries people, load_birthdays entries = .ok people →
      ∀ q ∈ people, pyStrip q.nickname = q.nickname) := by
  refine ⟨?_, ?_, by decide, load_birthdays_nickname_stripped⟩
  · simp only [Person.mention, hnick]
  · intro q
    simp [MessageTemplate.render, formatAux, lookupField, String.ext_iff,
      String.data_append]

/-- Witness for C8 at name `Ann`, nickname `ann`. -/
theorem mention_render_spec_witness :
    (Person.mention ⟨"Ann", "ann", ⟨1990, 4, 7⟩⟩
      = if pyStartsWith "ann" "@" then "ann" else "@" ++ "ann") ∧
    MessageTemplate.render ⟨"Hi {name} ({mention})"⟩ ⟨"Ann", "ann", ⟨1990, 4, 7⟩⟩
      = some "Hi Ann (@ann)" :=
  ⟨(mention_render_spec ⟨"Ann", "ann", ⟨1990, 4, 7⟩⟩ (by decide)).1,
   (mention_render_spec ⟨"Ann", "ann", ⟨1990, 4, 7⟩⟩ (by decide)).2.2.1⟩

/-! ## C7: one rendered message per celebrant -/

theorem selectLoop_ok (draws : Nat → Nat) (templates : List MessageTemplate)
    (hne : templates ≠ []) (ps : List Person) (i0 : Nat)
    (hr : ∀ p ∈ ps, ∀ t ∈ templates, (t.render p).isSome = true) :
    ∃ l, selectLoop draws templates ps i0 = .ok l ∧ l.length = ps.length ∧
      ∀ j, j < ps.length →
        some (l.getD j "")
          = (templates.getD (draws (i0 + j) % templates.length) ⟨""⟩).render
              (ps.getD j defaultPerson) := by
  induction ps generalizing i0 with
  | nil =>
    exact ⟨[], rfl, rfl, fun j hj => absurd hj (Nat.not_lt_zero j)⟩
  | cons p ps ih =>
    have hlen : 0 < templates.length := List.length_pos.mpr hne
    have hmem : templates.getD (draws i0 % templates.length) ⟨""⟩ ∈ templates :=
      getD_mem_of_lt _ _ _ (Nat.mod_lt _ hlen)
    have hsome := hr p (List.mem_cons_self p ps) _ hmem
    obtain ⟨msg, hmsg⟩ := Option.isSome_iff_exists.mp hsome
    obtain ⟨l, hl, hlen2, hidx⟩ :=
      ih (i0 + 1) (fun q hq t ht => hr q (List.mem_cons_of_mem p hq) t ht)
    refine ⟨msg :: l, ?_, by simp [hlen2], ?_⟩
    · simp only [selectLoop, hmsg, hl]
    · intro j hj
      cases j with
      | zero => simpa using hmsg.symm
      | succ j =>
        have hj2 : j < ps.length := by simpa using hj
        have harith : i0 + (j + 1) = (i0 + 1) + j := by omega
        simpa [harith] using hidx j hj2

/-- C7: for a non-empty template sequence (and templates whose placeholders
all render), `select_messages` returns one rendered message per celebrant, in
celebrant order; the j-th message is the rendering, for the j-th celebrant, of
the template the j-th draw picks from the given sequence — so one celebrant's
draw does not constrain another's, and the same template may be picked more
than once. -/
theorem select_messages_renders_spec (draws : Nat → Nat) (people : List Person)
    (templates : List MessageTemplate) (hne : templates ≠ [])
    (hr : ∀ p ∈ people, ∀ t ∈ templates, (t.render p).isSome = true) :
    ∃ l, select_messages draws people templates = .ok l ∧
      l.length = people.length ∧
      ∀ j, j < people.length →
        ∃ t ∈ templates,
          t = templates.getD (draws j % templates.length) ⟨""⟩ ∧
          some (l.getD j "") = t.render (people.getD j defaultPerson) := by
  have hemp : templates.isEmpty = false := by simpa [List.isEmpty_iff] using hne
  obtain ⟨l, hl, hlen, hidx⟩ := selectLoop_ok draws templates hne people 0 hr
  refine ⟨l, ?_, hlen, ?_⟩
  · simp only [select_messages, hemp, Bool.false_eq_true, if_false]
    exact hl
  · intro j hj
    have hlen0 : 0 < templates.length := List.length_pos.mpr hne
    refine ⟨templates.getD (draws j % templates.length) ⟨""⟩,
      getD_mem_of_lt _ _ _ (Nat.mod_lt _ hlen0), rfl, ?_⟩
    simpa using hidx j hj

/-- Witness for C7: one celebrant, one template. -/
theorem select_messages_renders_spec_witness :
    select_messages zeroDraws [annPerson] [greetTemplate] = .ok ["Hi Ann (@ann)"] := by
  have h := select_messages_renders_spec zeroDraws [annPerson] [greetTemplate]
    (by decide) (by decide)
  decide

/-! ## C2: sends in order, abort on first transport failure -/

theorem sendLoop_all_ok (responds : Nat → HttpResponse) (token chatId : String)
    (msgs : List String) (i0 : Nat)
    (h : ∀ j, j < msgs.length → (responds (i0 + j)).status_code < 400) :
    sendLoop responds token chatId msgs i0
      = (msgs.map (fun m => (token, chatId, m)), .ok ()) := by
  induction msgs generalizing i0 with
  | nil => rfl
  | cons m ms ih =>
    have h0 : (responds i0).status_code < 400 := by simpa using h 0 (by simp)
    have hsend : send_telegram_message token chatId m (responds i0) = .ok () := by
      simp only [send_telegram_message, if_neg (by omega : ¬ 400 ≤ (responds i0).status_code)]
    have ihres := ih (i0 + 1) (fun j hj => by
      simpa [show i0 + 1 + j = i0 + (j + 1) by omega] using h (j + 1) (by simpa using hj))
    simp [sendLoop, hsend, ihres]

theorem sendLoop_abort (responds : Nat → HttpResponse) (token chatId : String)
    (msgs : List String) (i0 k : Nat) (hk : k < msgs.length)
    (hfail : 400 ≤ (responds (i0 + k)).status_code)
    (hbefore : ∀ j, j < k → (responds (i0 + j)).status_code < 400) :
    sendLoop responds token chatId msgs i0
      = ((msgs.take (k + 1)).map (fun m => (token, chatId, m)),
         .error (.telegramApiError (responds (i0 + k)).status_code
           (responds (i0 + k)).text)) := by
  induction msgs generalizing i0 k with
  | nil => exact absurd hk (Nat.not_lt_zero k)
  | cons m ms ih =>
    cases k with
    | zero =>
      have hfail0 : 400 ≤ (responds i0).status_code := by simpa using hfail
      have hsend : send_telegram_message token chatId m (responds i0)
          = .error (.telegramApiError (responds i0).status_code (responds i0).text) := by
        simp only [send_telegram_message, if_pos hfail0]
      simp [sendLoop, hsend]
    | succ k =>
      have h0 : (responds i0).status_code < 400 := by
        simpa using hbefore 0 (Nat.succ_pos k)
      have hsend : send_telegram_message token chatId m (responds i0) = .ok () := by
        simp only [send_telegram_message, if_neg (by omega : ¬ 400 ≤ (responds i0).status_code)]
      have harith : i0 + 1 + k = i0 + (k + 1) := by omega
      have ihres := ih (i0 + 1) k (by simpa using hk)
        (by simpa [harith] using hfail)
        (fun j hj => by
          simpa [show i0 + 1 + j = i0 + (j + 1) by omega]
            using hbefore (j + 1) (by omega))
      simp [sendLoop, hsend, ihres, harith]

/-- C2: the send loop dispatches the rendered messages in order; if every
response is below 400 all of them are attempted and the loop returns
normally; if the k-th response is the first with status ≥ 400, exactly the
messages up to and including the k-th are attempted (each exactly once, no
retry), the loop aborts with that response's `TelegramApiError`, and no later
message is ever attempted. -/
theorem sendLoop_abort_on_first_failure (responds : Nat → HttpResponse)
    (token chatId : String) (msgs : List String) :
    ((∀ j, j < msgs.length → (responds j).status_code < 400) →
      sendLoop responds token chatId msgs 0
        = (msgs.map (fun m => (token, chatId, m)), .ok ())) ∧
    (∀ k, k < msgs.length → 400 ≤ (responds k).status_code →
      (∀ j, j < k → (responds j).status_code < 400) →
      sendLoop responds token chatId msgs 0
        = ((msgs.take (k + 1)).map (fun m => (token, chatId, m)),
           .error (.telegramApiError (responds k).status_code (responds k).text))) := by
  constructor
  · intro h
    exact sendLoop_all_ok responds token chatId msgs 0 (by simpa using h)
  · intro k hk hf hb
    simpa using sendLoop_abort responds token chatId msgs 0 k hk
      (by simpa using hf) (by simpa using hb)

/-- Witness for C2: two sends that both succeed, and a three-message run whose
second send fails — the first two calls are attempted, the third never is. -/
theorem sendLoop_abort_on_first_failure_witness :
    sendLoop okResponds "tok" "chat" ["a", "b"] 0
      = ([("tok", "chat", "a"), ("tok", "chat", "b")], .ok ()) ∧
    sendLoop failSecondResponds "tok" "chat" ["a", "b", "c"] 0
      = ([("tok", "chat", "a"), ("tok", "chat", "b")],
         .error (.telegramApiError 500 "boom")) := by
  have h1 := (sendLoop_abort_on_first_failure okResponds "tok" "chat" ["a", "b"]).1
    (by decide)
  have h2 := (sendLoop_abort_on_first_failure failSecondResponds "tok" "chat"
    ["a", "b", "c"]).2 1 (by decide) (by decide) (by decide)
  exact ⟨by simpa using h1, by simpa [failSecondResponds] using h2⟩

/-! ## C4: empty celebrant set short-circuits before configuration -/

/-- C4: whenever the loaded people produce no celebrant for the reference
date, the pipeline returns the empty message list with an empty transport
trace — zero POSTs — and the result is the same for every environment
(`env` is universally quantified and never consulted), so missing transport
configuration is not an error on a no-celebrant day. -/
theorem congratulate_today_no_celebrants_spec (env : String → Option String)
    (responds : Nat → HttpResponse) (draws : Nat → Nat) (today : Date)
    (entries : List RawEntry) (tentries : List String) (people : List Person)
    (hload : load_birthdays entries = .ok people)
    (hcel : celebrants people today = []) :
    congratulate_today env responds draws today entries tentries = ([], .ok []) := by
  simp [congratulate_today, hload, hcel]

/-- Witness for C4: one loaded person, a non-matching date, and an environment
with no variables at all — still no error and no transport call. -/
theorem congratulate_today_no_celebrants_spec_witness :
    congratulate_today emptyEnv okResponds zeroDraws ⟨2020, 5, 1⟩ [annEntry] []
      = ([], .ok []) :=
  congratulate_today_no_celebrants_spec emptyEnv okResponds zeroDraws ⟨2020, 5, 1⟩
    [annEntry] [] [annPerson] (by decide) (by decide)

/-! ## C10: empty environment value behaves like an absent one -/

/-- C10: configuration lookup fails, naming the variable, exactly when the
environment value is unset or the empty string, and otherwise returns the
value unchanged; consequently a run with at least one celebrant and
`TELEGRAM_BOT_TOKEN` set to the empty string aborts with the configuration
error for that variable (before any draw or send). -/
theorem env_lookup_spec (env : String → Option String) (name : String)
    (responds : Nat → HttpResponse) (draws : Nat → Nat) (today : Date)
    (entries : List RawEntry) (tentries : List String) (people : List Person) :
    ((env name = none ∨ env name = some "") →
      _get_env_variable env name = .error (.missingEnvironmentVariable name)) ∧
    (∀ v, _get_env_variable env name = .ok v ↔ (env name = some v ∧ v ≠ "")) ∧
    (load_birthdays entries = .ok people → celebrants people today ≠ [] →
      env "TELEGRAM_BOT_TOKEN" = some "" →
      congratulate_today env responds draws today entries tentries
        = ([], .error (.missingEnvironmentVariable "TELEGRAM_BOT_TOKEN"))) := by
  refine ⟨?_, ?_, ?_⟩
  · rintro (h | h) <;> simp [_get_env_variable, h]
  · intro v
    constructor
    · intro h
      cases henv : env name with
      | none => simp [_get_env_variable, henv] at h
      | some w =>
        simp only [_get_env_variable, henv] at h
        by_cases hw : w = ""
        · simp [hw] at h
        · simp only [if_neg hw] at h
          cases h
          exact ⟨rfl, hw⟩
    · rintro ⟨henv, hv⟩
      simp [_get_env_variable, henv, hv]
  · intro hload hcel htok
    have htokerr : _get_env_variable env "TELEGRAM_BOT_TOKEN"
        = .error (.missingEnvironmentVariable "TELEGRAM_BOT_TOKEN") := by
      simp [_get_env_variable, htok]
    simp [congratulate_today, hload, hcel, htokerr]

/-- Witness for C10: an environment whose token is present but empty fails
the lookup, and aborts a run that has one celebrant. -/
theorem env_lookup_spec_witness :
    _get_env_variable emptyTokenEnv "TELEGRAM_BOT_TOKEN"
      = .error (.missingEnvironmentVariable "TELEGRAM_BOT_TOKEN") ∧
    congratulate_today emptyTokenEnv okResponds zeroDraws ⟨2024, 4, 7⟩ [annEntry]
      [" hi "] = ([], .error (.missingEnvironmentVariable "TELEGRAM_BOT_TOKEN")) :=
  ⟨(env_lookup_spec emptyTokenEnv "TELEGRAM_BOT_TOKEN" okResponds zeroDraws
      ⟨2024, 4, 7⟩ [] [] []).1 (Or.inr (by decide)),
   (env_lookup_spec emptyTokenEnv "TELEGRAM_BOT_TOKEN" okResponds zeroDraws
      ⟨2024, 4, 7⟩ [annEntry] [" hi "] [annPerson]).2.2 (by decide) (by decide)
      (by decide)⟩
